import Mathlib

set_option autoImplicit false

/-!
Shallow embedding of the dwellir-harvester blockchain-collector core
(src/blockchain_collector): the outcome protocol (success / partial / failed),
the EVM (reth-family), Substrate and Aptos collectors, the network-name
mapper, and the envelope builder (core.run_collector).  Probe calls are
boundary I/O; each collector is embedded as a pure function of the probe
results it consumes, translated statement-by-statement from the Python
source.  Python truthiness (None and the empty string are falsy) and Python
dict semantics (insertion order, update-in-place) are modelled explicitly.
-/

namespace Harvester

/-- JSON-like values stored in the workload / blockchain / metadata buckets. -/
inductive JVal where
  | str (s : String)
  | int (n : Int)
  | list (xs : List String)
  deriving DecidableEq

/-- An insertion-ordered string-keyed dictionary (Python dict of JSON scalars). -/
abbrev Dict := List (String × JVal)

/-- Python membership test k in d. -/
def containsKey : Dict → String → Bool
  | [], _ => false
  | p :: d, k => (p.1 == k) || containsKey d k

/-- Python d.get(k) / d[k] lookup. -/
def dictGet : Dict → String → Option JVal
  | [], _ => none
  | p :: d, k => if p.1 == k then some p.2 else dictGet d k

/-- Python d[k] = v: replace in place (keys are unique), else append. -/
def dictSet : Dict → String → JVal → Dict
  | [], k, v => [(k, v)]
  | p :: d, k, v => if p.1 == k then (k, v) :: d else p :: dictSet d k v

/-- Python d.update(extra): last write wins, new keys appended in order. -/
def dictUpdate (d : Dict) (extra : Dict) : Dict :=
  extra.foldl (fun a p => dictSet a p.1 p.2) d

/-- Python truthiness of an Optional[str]: None and the empty string are falsy. -/
def truthyS : Option String → Bool
  | none => false
  | some s => !(s == "")

/-- Python a or d where a : Optional[str] and d a string default. -/
def pyOrD : Option String → String → String
  | some s, d => if s == "" then d else s
  | none, d => d

/-- Python a or b on two Optional[str] values. -/
def pyOr (a b : Option String) : Option String :=
  if truthyS a then a else b

/-- The whitespace characters stripped by Python str.strip (ASCII subset). -/
def pyIsSpace (c : Char) : Bool :=
  c == ' ' || c == '\t' || c == '\n' || c == Char.ofNat 13 || c == Char.ofNat 11 || c == Char.ofNat 12

/-- Python str.strip on a character list. -/
def pyStripChars (l : List Char) : List Char :=
  ((l.dropWhile pyIsSpace).reverse.dropWhile pyIsSpace).reverse

/-- Numeric value of a decimal digit character. -/
def digitVal (c : Char) : Nat := c.toNat - 48

/-- Digit run accepted by Python int(): decimal digits with single
underscores allowed only between digits.  Accumulator-style. -/
def pyDigitsAux : List Char → Nat → Option Nat
  | [], acc => some acc
  | [c], acc => if c.isDigit then some (acc * 10 + digitVal c) else none
  | c :: d :: rest, acc =>
    if c.isDigit then pyDigitsAux (d :: rest) (acc * 10 + digitVal c)
    else if c == '_' && d.isDigit then pyDigitsAux rest (acc * 10 + digitVal d)
    else none

/-- Model of Python int(s) for decimal strings: strip whitespace, optional
sign, then an underscore-separated digit run.  Returns none where Python
raises ValueError. -/
def pyToInt? (s : String) : Option Int :=
  match pyStripChars s.toList with
  | [] => none
  | c :: rest =>
    if c == '+' then
      match rest with
      | [] => none
      | d :: _ => if d.isDigit then (pyDigitsAux rest 0).map Int.ofNat else none
    else if c == '-' then
      match rest with
      | [] => none
      | d :: _ => if d.isDigit then (pyDigitsAux rest 0).map (fun n => -(n : Int)) else none
    else if c.isDigit then (pyDigitsAux (c :: rest) 0).map Int.ofNat
    else none

/-- A single-quote character, used when rendering Python repr strings. -/
def sq : String := String.singleton (Char.ofNat 39)

/-- Approximation of Python repr() on a string: quote choice and escaping of
backslashes and the quote character (non-printable escapes not modelled). -/
def pyReprStr (s : String) : String :=
  let q : Char := if s.toList.contains (Char.ofNat 39) && !(s.toList.contains (Char.ofNat 34)) then Char.ofNat 34 else Char.ofNat 39
  let esc := s.toList.foldl
    (fun acc c =>
      if c == '\\' then acc ++ "\\\\"
      else if c == q then acc ++ "\\" ++ String.singleton c
      else acc ++ String.singleton c) ""
  String.singleton q ++ esc ++ String.singleton q

/-- The static chain-id table of _reth_common._map_network_name (line 54). -/
def ethMapping (cid : Int) : Option String :=
  if cid = 1 then some "mainnet"
  else if cid = 11155111 then some "sepolia"
  else if cid = 17000 then some "holesky"
  else if cid = 5 then some "goerli"
  else none

/-- The net_version fallback of _map_network_name (lines 57-63): a truthy
string version is parsed as a decimal int and looked up again, synthesizing
network-<id> for unmapped ids; an unparsable version is returned verbatim;
otherwise the sentinel. -/
def mapNetFromVersion : Option String → String
  | some s =>
    if s == "" then "unknown"
    else
      match pyToInt? s with
      | some cid => (ethMapping cid).getD ("network-" ++ toString cid)
      | none => s
  | none => "unknown"

/-- _reth_common._map_network_name (lines 53-63): exact table match on the
numeric chain id first, then the string-version fallback. -/
def _map_network_name (chain_id : Option Int) (net_version : Option String) : String :=
  match chain_id with
  | some cid =>
    match ethMapping cid with
    | some name => name
    | none => mapNetFromVersion net_version
  | none => mapNetFromVersion net_version

/-- core.CollectResult: the two semantic buckets of one collection attempt. -/
structure CollectResult where
  blockchain : Dict
  workload : Dict
  deriving DecidableEq

/-- The three-way outcome protocol a collect() call communicates to
core.run_collector: a returned CollectResult, a CollectorPartialError
(messages plus an optional payload), a CollectorFailedError (one joined
message), or any other exception (carried as its Python repr string, since
core only records repr(e)). -/
inductive CollectOutcome where
  | success (r : CollectResult)
  | incomplete (messages : List String) (payload : Option CollectResult)
  | failedErr (message : String)
  | otherExn (excRepr : String)
  deriving DecidableEq

/-- Status word run_collector derives for each outcome. -/
def outcomeStatus : CollectOutcome → String
  | .success _ => "success"
  | .incomplete _ _ => "partial"
  | .failedErr _ => "failed"
  | .otherExn _ => "failed"

/-- True exactly on the CollectorFailedError outcome. -/
def isFailedOutcome : CollectOutcome → Bool
  | .failedErr _ => true
  | _ => false

/-- The payload an outcome carries, if any. -/
def payloadOf : CollectOutcome → Option CollectResult
  | .success r => some r
  | .incomplete _ p => p
  | .failedErr _ => none
  | .otherExn _ => none

/-- The client_version value inside the emitted payload, if a payload exists. -/
def emittedClientVersion (o : CollectOutcome) : Option JVal :=
  (payloadOf o).bind (fun r => dictGet r.workload "client_version")

/-- Python "; ".join(messages) or default. -/
def joinSemicolonOr (msgs : List String) (d : String) : String :=
  let j := String.intercalate "; " msgs
  if j == "" then d else j

/-- Python messages or default for a list (empty list is falsy). -/
def listOrDefault (msgs : List String) (d : List String) : List String :=
  if msgs.isEmpty then d else msgs

/-- Observable outcome of the CLI --version phase of collect_reth
(_reth_common lines 82-95) and of RethCollector.collect (reth.py lines
81-89): either the first output line (never empty, since the stdout is
stripped before splitting into lines), or no version plus exactly one
appended message (binary not found, subprocess failure, or empty output). -/
inductive CliResult where
  | version (v : String)
  | failMsg (m : String)
  deriving DecidableEq

/-- The Optional[str] value of the CLI phase. -/
def cliVersionOpt : CliResult → Option String
  | .version v => some v
  | .failMsg _ => none

/-- The messages accumulated during the CLI phase. -/
def cliMessages : CliResult → List String
  | .version _ => []
  | .failMsg m => [m]

/-- The probe results one EVM-family collection run consumes: the CLI phase,
the resolved RPC url, and the three RPC probes (web3_clientVersion,
eth_chainId already parsed from hex, net_version), each with the error
string reported when it failed (None errors fall back to a fixed text via
Python or, see _reth_common lines 100-110). -/
structure RethInputs where
  cli : CliResult
  rpc_url : String
  rpcVersion : Option String
  rpcVersionErr : Option String
  chainId : Option Int
  chainIdErr : Option String
  netVersion : Option String
  netVersionErr : Option String
  deriving DecidableEq

/-- The error-message list assembled by collect_reth lines 80-110 (CLI
messages first, then one message per failed RPC probe, in probe order). -/
def rethMessages (i : RethInputs) : List String :=
  cliMessages i.cli
    ++ (if i.rpcVersion.isNone then [pyOrD i.rpcVersionErr "RPC web3_clientVersion unavailable"] else [])
    ++ (if i.chainId.isNone then [pyOrD i.chainIdErr "RPC eth_chainId unavailable"] else [])
    ++ (if i.netVersion.isNone then [pyOrD i.netVersionErr "RPC net_version unavailable"] else [])

/-- Line 117: client_version_rpc or client_version_cli or "unknown". -/
def rethClientVersion (i : RethInputs) : String :=
  pyOrD (pyOr i.rpcVersion (cliVersionOpt i.cli)) "unknown"

/-- Lines 115-119: the workload bucket. -/
def rethWorkload (client_name : String) (i : RethInputs) : Dict :=
  [("client_name", .str client_name),
   ("client_version", .str (rethClientVersion i)),
   ("rpc_url", .str i.rpc_url)]

/-- Line 112: network name resolution. -/
def rethNetworkName (i : RethInputs) : String :=
  _map_network_name i.chainId i.netVersion

/-- Lines 120-124: the blockchain bucket, with the -1 sentinel chain id. -/
def rethBlockchain (i : RethInputs) : Dict :=
  [("blockchain_ecosystem", .str "Ethereum"),
   ("blockchain_network_name", .str (rethNetworkName i)),
   ("chain_id", .int (i.chainId.getD (-1)))]

/-- Line 127: any([client_version_rpc, client_version_cli,
chain_id is not None, net_version is not None]) - note the first two are
tested by Python truthiness (an empty string counts as no info) while the
last two are explicit is-not-None tests. -/
def rethHaveAnyInfo (i : RethInputs) : Bool :=
  truthyS i.rpcVersion || truthyS (cliVersionOpt i.cli) || i.chainId.isSome || i.netVersion.isSome

/-- Line 128. -/
def rethWorkloadComplete (i : RethInputs) : Bool :=
  !(rethClientVersion i == "unknown")

/-- Line 129. -/
def rethBlockchainComplete (i : RethInputs) : Bool :=
  i.chainId.isSome && !(rethNetworkName i == "unknown")

/-- The extra messages appended on the partial path (lines 136-141). -/
def rethMissingMessages (i : RethInputs) : List String :=
  (if !(rethWorkloadComplete i) then ["Missing client_version (both RPC and CLI failed)."] else [])
    ++ (if i.chainId.isNone then ["Missing chain_id."] else [])
    ++ (if rethNetworkName i == "unknown" then ["Unable to determine known network name."] else [])

/-- _reth_common.collect_reth lines 79-145: assemble both buckets, then the
three-way decision - failed when no probe yielded truthy info, partial (with
the assembled payload attached) when a critical field is missing, success
otherwise. -/
def collect_reth (client_name : String) (i : RethInputs) : CollectOutcome :=
  if !(rethHaveAnyInfo i) then
    .failedErr (joinSemicolonOr (rethMessages i) "no RPC or CLI info")
  else if !(rethWorkloadComplete i && rethBlockchainComplete i) then
    .incomplete (listOrDefault (rethMessages i ++ rethMissingMessages i) ["Partial data only."])
      (some ⟨rethBlockchain i, rethWorkload client_name i⟩)
  else
    .success ⟨rethBlockchain i, rethWorkload client_name i⟩

/-- repr of the TypeError raised by reth.py line 130, where a str is
concatenated with the message list inside the CollectorFailedError call. -/
def rethPyTypeErrorRepr : String :=
  "TypeError(" ++ sq ++ "can only concatenate str (not \"list\") to str" ++ sq ++ ")"

/-- RethCollector.collect (reth.py lines 78-144): same probes and decision
guards as collect_reth with client_name fixed to "reth", but the failed
branch raises a TypeError (line 130 concatenates a str with the message
list), and the partial branch raises CollectorPartialError without a
payload, so core wipes blockchain/workload to empty mappings. -/
def rethPyCollect (i : RethInputs) : CollectOutcome :=
  if !(rethHaveAnyInfo i) then
    .otherExn rethPyTypeErrorRepr
  else if !(rethWorkloadComplete i && rethBlockchainComplete i) then
    .incomplete (listOrDefault (rethMessages i ++ rethMissingMessages i) ["Partial data only."]) none
  else
    .success ⟨rethBlockchain i, rethWorkload "reth" i⟩

/-- The probe results one Substrate-family collection run consumes
(_substrate_common lines 76-100): the four RPC probes with their error
strings.  system_name is only consulted when no usable client_name override
was supplied. -/
structure SubstrateInputs where
  rpc_url : String
  systemVersion : Option String
  systemVersionErr : Option String
  systemChain : Option String
  systemChainErr : Option String
  genesisHash : Option String
  genesisHashErr : Option String
  systemName : Option String
  systemNameErr : Option String
  deriving DecidableEq

/-- Lines 95-100: derive client_name from the system_name probe; on failure
the name becomes the empty string and one message is appended. -/
def substrateNameFromRpc (i : SubstrateInputs) : String × List String :=
  match i.systemName with
  | some v => (v, [])
  | none => ("", [pyOrD i.systemNameErr "RPC system_name unavailable"])

/-- Lines 93-100: a wrapper-supplied client_name is kept only when it strips
to a non-empty string; otherwise it is derived from RPC. -/
def substrateClientName (client_name : Option String) (i : SubstrateInputs) : String × List String :=
  match client_name with
  | some s => if (pyStripChars s.toList).isEmpty then substrateNameFromRpc i else (s, [])
  | none => substrateNameFromRpc i

/-- Messages of the three unconditional probes (lines 81-91), in order. -/
def substrateBaseMessages (i : SubstrateInputs) : List String :=
  (if i.systemVersion.isNone then [pyOrD i.systemVersionErr "RPC system_version unavailable"] else [])
    ++ (if i.systemChain.isNone then [pyOrD i.systemChainErr "RPC system_chain unavailable"] else [])
    ++ (if i.genesisHash.isNone then [pyOrD i.genesisHashErr "RPC chain_getBlockHash(0) unavailable"] else [])

/-- Lines 102-106: the workload bucket. -/
def substrateWorkload (cn : String) (i : SubstrateInputs) : Dict :=
  [("client_name", .str cn),
   ("client_version", .str (pyOrD i.systemVersion "unknown")),
   ("rpc_url", .str i.rpc_url)]

/-- Lines 107-112: the blockchain bucket; the genesis hash becomes the
string-typed chain_id only when truthy. -/
def substrateBlockchain (i : SubstrateInputs) : Dict :=
  [("blockchain_ecosystem", .str "Polkadot"),
   ("blockchain_network_name", .str (pyOrD i.systemChain "unknown"))]
    ++ (match i.genesisHash with
        | some g => if g == "" then [] else [("chain_id", .str g)]
        | none => [])

/-- Line 114: any([system_version, system_chain, genesis_hash, client_name])
by Python truthiness. -/
def substrateHaveAnyInfo (cn : String) (i : SubstrateInputs) : Bool :=
  truthyS i.systemVersion || truthyS i.systemChain || truthyS i.genesisHash || !(cn == "")

/-- Line 115. -/
def substrateWorkloadComplete (cn : String) (i : SubstrateInputs) : Bool :=
  truthyS i.systemVersion && !(cn == "")

/-- Line 116. -/
def substrateBlockchainComplete (i : SubstrateInputs) : Bool :=
  truthyS i.systemChain

/-- The extra messages appended on the partial path (lines 123-128). -/
def substrateMissingMessages (cn : String) (i : SubstrateInputs) : List String :=
  (if !(truthyS i.systemVersion) then ["Missing client_version (RPC system_version failed)."] else [])
    ++ (if cn == "" then ["Missing client_name (RPC system_name failed and no override provided)."] else [])
    ++ (if !(substrateBlockchainComplete i) then ["Missing blockchain_network_name (RPC system_chain failed)."] else [])

/-- _substrate_common.collect_substrate lines 76-131. -/
def collect_substrate (client_name : Option String) (i : SubstrateInputs) : CollectOutcome :=
  let cnm := substrateClientName client_name i
  let cn := cnm.1
  let messages := substrateBaseMessages i ++ cnm.2
  if !(substrateHaveAnyInfo cn i) then
    .failedErr (joinSemicolonOr messages "no RPC info from node")
  else if !(substrateWorkloadComplete cn i && substrateBlockchainComplete i) then
    .incomplete (listOrDefault (messages ++ substrateMissingMessages cn i) ["Partial data only."])
      (some ⟨substrateBlockchain i, substrateWorkload cn i⟩)
  else
    .success ⟨substrateBlockchain i, substrateWorkload cn i⟩

/-- Lowercased HTTP response headers, as _http_get returns them. -/
abbrev Headers := List (String × String)

/-- Header lookup (headers[k] when k in headers). -/
def hFind : Headers → String → Option String
  | [], _ => none
  | p :: h, k => if p.1 == k then some p.2 else hFind h k

/-- Python truthiness of a JSON scalar. -/
def jTruthy : JVal → Bool
  | .str s => !(s == "")
  | .int n => !(n == 0)
  | .list xs => !xs.isEmpty

/-- Python int(v) on a JSON scalar: ints pass through, strings are parsed,
anything else raises (modelled as none, matching the except: pass paths). -/
def pyIntOfJVal : JVal → Option Int
  | .str s => pyToInt? s
  | .int n => some n
  | .list _ => none

/-- Python str(v) on a JSON scalar (list rendering approximates repr). -/
def pyStrOfJVal : JVal → String
  | .str s => s
  | .int n => toString n
  | .list xs => "[" ++ String.intercalate ", " (xs.map (fun s => sq ++ s ++ sq)) ++ "]"

/-- aptos._parse_chain_id (lines 70-81): decimal header first (parse failure
falls through), then the chain_id field of a truthy JSON body. -/
def _parse_chain_id (body : Option Dict) (headers : Headers) : Option Int :=
  let fromBody : Option Int :=
    match body with
    | some d =>
      if !d.isEmpty && containsKey d "chain_id" then
        match dictGet d "chain_id" with
        | some v => pyIntOfJVal v
        | none => none
      else none
    | none => none
  match hFind headers "x-aptos-chain-id" with
  | some hv =>
    match pyToInt? hv with
    | some n => some n
    | none => fromBody
  | none => fromBody

/-- aptos._parse_client_version (lines 84-94): first truthy of the two
version headers, then the two body fields of a truthy body. -/
def _parse_client_version (body : Option Dict) (headers : Headers) : Option String :=
  let fromHeader (k : String) : Option String :=
    match hFind headers k with
    | some v => if v == "" then none else some v
    | none => none
  let fromBodyKey (k : String) : Option String :=
    match body with
    | some d =>
      match dictGet d k with
      | some v => if jTruthy v then some (pyStrOfJVal v) else none
      | none => none
    | none => none
  let fromBody : Option String :=
    match body with
    | some d =>
      if d.isEmpty then none
      else (fromBodyKey "node_version").orElse (fun _ => fromBodyKey "git_hash")
    | none => none
  ((fromHeader "x-aptos-node-version").orElse (fun _ => fromHeader "x-aptos-git-hash")).orElse
    (fun _ => fromBody)

/-- aptos._get_network_name (lines 97-103). -/
def _get_network_name (chain_id : Option Int) : Option String :=
  match chain_id with
  | some n => if n = 1 then some "mainnet" else if n = 2 then some "testnet" else none
  | none => none

/-- What AptosCollector.collect consumes: the _probe_ledger result (JSON
body, lowercased headers, per-candidate failure reasons) and the REST url. -/
structure AptosInputs where
  rpc_url : String
  body : Option Dict
  headers : Headers
  probeErrs : List String
  deriving DecidableEq

/-- Line 118 of aptos.py. -/
def aptosChainId (i : AptosInputs) : Option Int :=
  _parse_chain_id i.body i.headers

/-- Line 122: _parse_client_version(...) or "unknown". -/
def aptosClientVersion (i : AptosInputs) : String :=
  pyOrD (_parse_client_version i.body i.headers) "unknown"

/-- Line 126: _get_network_name(chain_id) or "unknown". -/
def aptosNetworkName (i : AptosInputs) : String :=
  pyOrD (_get_network_name (aptosChainId i)) "unknown"

/-- Messages accumulated in aptos.py lines 111-128. -/
def aptosMessages (i : AptosInputs) : List String :=
  i.probeErrs
    ++ (if (aptosChainId i).isNone then ["Unable to determine chain_id from REST headers/body."] else [])
    ++ (if aptosClientVersion i == "unknown" then ["Client version not exposed (no node_version/git_hash headers)."] else [])
    ++ (if aptosNetworkName i == "unknown" then ["Unable to determine network name."] else [])

/-- Lines 130-134. -/
def aptosWorkload (i : AptosInputs) : Dict :=
  [("client_name", .str "aptos-node"),
   ("client_version", .str (aptosClientVersion i)),
   ("rpc_url", .str i.rpc_url)]

/-- Lines 135-140: chain_id only present when resolved. -/
def aptosBlockchain (i : AptosInputs) : Dict :=
  [("blockchain_ecosystem", .str "Aptos"),
   ("blockchain_network_name", .str (aptosNetworkName i))]
    ++ (match aptosChainId i with
        | some n => [("chain_id", .int n)]
        | none => [])

/-- Line 143. -/
def aptosHaveAnyInfo (i : AptosInputs) : Bool :=
  (aptosChainId i).isSome || !(aptosClientVersion i == "unknown") || !(aptosNetworkName i == "unknown")

/-- AptosCollector.collect (aptos.py lines 110-154).  Note line 144 sets
workload_complete to the constant True (the schema only requires
client_name), so only blockchain completeness gates success. -/
def aptos_collect (i : AptosInputs) : CollectOutcome :=
  if !(aptosHaveAnyInfo i) then
    .failedErr (joinSemicolonOr (aptosMessages i) "no REST info from node")
  else if !(true && !(aptosNetworkName i == "unknown")) then
    .incomplete (listOrDefault (aptosMessages i) ["Partial data only."])
      (some ⟨aptosBlockchain i, aptosWorkload i⟩)
  else
    .success ⟨aptosBlockchain i, aptosWorkload i⟩

/-- The emitted record: metadata block plus the two buckets
(core.run_collector lines 100-110). -/
structure Envelope where
  metadata : Dict
  blockchain : Dict
  workload : Dict
  deriving DecidableEq

/-- repr(CollectorFailedError(msg)) as core records it for a failed raise. -/
def reprFailedError (m : String) : String :=
  "CollectorFailedError(" ++ pyReprStr m ++ ")"

/-- The try/except of run_collector lines 86-98: the payload kept for the
envelope (e.partial or an empty CollectResult on the partial path; an empty
CollectResult on both failure paths, since the generic except branch also
catches CollectorFailedError). -/
def envPayload : CollectOutcome → CollectResult
  | .success r => r
  | .incomplete _ p => p.getD ⟨[], []⟩
  | .failedErr _ => ⟨[], []⟩
  | .otherExn _ => ⟨[], []⟩

/-- The errors list of run_collector lines 82-98: empty on success, the
partial messages, or the single repr(e) of the raised exception. -/
def envErrors : CollectOutcome → List String
  | .success _ => []
  | .incomplete msgs _ => msgs
  | .failedErr m => [reprFailedError m]
  | .otherExn s => [s]

/-- The metadata block literal of run_collector lines 100-107. -/
def envMetaBase (NAME VERSION status : String) (errors : List String)
    (attempt_time : String) : Dict :=
  [("collector_name", .str NAME),
   ("collector_version", .str VERSION),
   ("last_collect_attempt_at", .str attempt_time),
   ("last_collect_status", .str status),
   ("last_collect_errors", .list errors)]

/-- Metadata after the conditional stamp of lines 111-112:
last_successful_collect_at is written only when status is success. -/
def envMeta (NAME VERSION : String) (outcome : CollectOutcome) (attempt_time : String) : Dict :=
  let md := envMetaBase NAME VERSION (outcomeStatus outcome) (envErrors outcome) attempt_time
  if outcomeStatus outcome == "success" then
    dictSet md "last_successful_collect_at" (.str attempt_time)
  else md

/-- Metadata after the extra-metadata merge of lines 113-114 (skipped for a
falsy - absent or empty - extra dict, last-write-wins otherwise). -/
def envMetaX (NAME VERSION : String) (outcome : CollectOutcome) (attempt_time : String)
    (extra : Option Dict) : Dict :=
  let md := envMeta NAME VERSION outcome attempt_time
  match extra with
  | some ex => if ex.isEmpty then md else dictUpdate md ex
  | none => md

/-- core.run_collector lines 81-114, after the registry lookup: derive
status / payload / errors from the outcome, build the metadata block, stamp
last_successful_collect_at only on success, and merge truthy caller-supplied
extra metadata last-write-wins.  Schema validation (line 117) only inspects
the envelope and is external. -/
def buildEnvelope (NAME VERSION : String) (outcome : CollectOutcome)
    (attempt_time : String) (extra : Option Dict) : Envelope :=
  ⟨envMetaX NAME VERSION outcome attempt_time extra,
   (envPayload outcome).blockchain,
   (envPayload outcome).workload⟩

/-- One registered collector as the registry sees it: its declared NAME and
VERSION, and the outcome its collect() communicates for this run's probe
results. -/
structure CollectorSpec where
  NAME : String
  VERSION : String
  outcome : CollectOutcome
  deriving DecidableEq

/-- Dict-valued registry lookup: load_collectors writes mapping[NAME] = cls
per module, so a later registration of the same name wins. -/
def regLookup (reg : List CollectorSpec) (name : String) : Option CollectorSpec :=
  reg.reverse.find? (fun c => c.NAME == name)

/-- The registry's key set (dict keys, duplicates collapsed). -/
def regNames (reg : List CollectorSpec) : List String :=
  (reg.map (fun c => c.NAME)).dedup

/-- Python string less-than: code-point lexicographic. -/
def charListLt : List Char → List Char → Bool
  | [], [] => false
  | [], _ :: _ => true
  | _ :: _, [] => false
  | a :: as, b :: bs =>
    if a.toNat < b.toNat then true
    else if b.toNat < a.toNat then false
    else charListLt as bs

/-- Python string ≤ as a Bool comparator. -/
def strLeB (a b : String) : Bool := !(charListLt b.toList a.toList)

/-- Ordered insert for the string sort. -/
def strInsert (a : String) : List String → List String
  | [] => [a]
  | b :: l => if strLeB a b then a :: b :: l else b :: strInsert a l

/-- Python sorted() on strings (stable; comparison by code points). -/
def strSort : List String → List String
  | [] => []
  | b :: l => strInsert b (strSort l)

/-- sorted(collectors.keys()). -/
def sortedNames (reg : List CollectorSpec) : List String :=
  strSort (regNames reg)

/-- The KeyError message of core.run_collector line 77. -/
def notFoundMsg (reg : List CollectorSpec) (name : String) : String :=
  "Collector " ++ sq ++ name ++ sq ++ " not found. Available: "
    ++ (let j := String.intercalate ", " (sortedNames reg)
        if j == "" then "(none)" else j)

/-- core.run_collector lines 73-120: resolve the collector by name (a
missing name is a hard KeyError surfaced to the caller before any
collection attempt), otherwise build the envelope. -/
def run_collector (reg : List CollectorSpec) (collector_name : String)
    (attempt_time : String) (extra : Option Dict) : Except String Envelope :=
  match regLookup reg collector_name with
  | none => .error (notFoundMsg reg collector_name)
  | some c => .ok (buildEnvelope c.NAME c.VERSION c.outcome attempt_time extra)

/-- Whether a metadata entry survives timestamp removal (its key is neither
of the two timestamp keys). -/
def keepTs (p : String × JVal) : Bool :=
  !(p.1 == "last_collect_attempt_at" || p.1 == "last_successful_collect_at")

/-- Metadata with the two timestamp fields removed, for comparing envelopes
up to timestamps. -/
def stripTsMeta (d : Dict) : Dict :=
  d.filter keepTs

/-- An envelope with the two timestamp fields removed. -/
def stripTs (e : Envelope) : Envelope :=
  ⟨stripTsMeta e.metadata, e.blockchain, e.workload⟩

/-- The keys of a dictionary, in insertion order. -/
def keysOf (d : Dict) : List String := d.map Prod.fst

/-! Concrete probe-result instances used by witnesses and counterexamples. -/

/-- A fully successful EVM probe round: CLI absent, all three RPC probes
answering (the mock round of tests/test_collectors_reth_variants.py). -/
def rethOkIn : RethInputs :=
  { cli := .failMsg "reth binary not found (set RETH_BIN or install reth)"
    rpc_url := "http://127.0.0.1:8545"
    rpcVersion := some "reth/v1.0.0"
    rpcVersionErr := none
    chainId := some 1
    chainIdErr := none
    netVersion := some "1"
    netVersionErr := none }

/-- The payload collect_reth emits for rethOkIn. -/
def rethOkPayload : CollectResult :=
  ⟨rethBlockchain rethOkIn, rethWorkload "reth" rethOkIn⟩

/-- An EVM probe round where the only non-null probe result is an empty
web3_clientVersion string (a reachable JSON-RPC response whose result field
is the empty string): non-null information exists, yet every truthiness
test fails. -/
def rethEmptyRpcIn : RethInputs :=
  { cli := .failMsg "reth binary not found (set RETH_BIN or install reth)"
    rpc_url := "http://127.0.0.1:8545"
    rpcVersion := some ""
    rpcVersionErr := none
    chainId := none
    chainIdErr := some "rpc eth_chainId connection error (url=http://127.0.0.1:8545): refused"
    netVersion := none
    netVersionErr := some "rpc net_version connection error (url=http://127.0.0.1:8545): refused" }

/-- An EVM probe round where every probe failed. -/
def rethAllFailIn : RethInputs :=
  { cli := .failMsg "reth binary not found (set RETH_BIN or install reth)"
    rpc_url := "http://127.0.0.1:8545"
    rpcVersion := none
    rpcVersionErr := some "rpc web3_clientVersion connection error (url=http://127.0.0.1:8545): refused"
    chainId := none
    chainIdErr := some "rpc eth_chainId connection error (url=http://127.0.0.1:8545): refused"
    netVersion := none
    netVersionErr := some "rpc net_version connection error (url=http://127.0.0.1:8545): refused" }

/-- An EVM probe round where only the CLI probe succeeded: the client
version resolves but chain id and network name do not. -/
def rethCliOnlyIn : RethInputs :=
  { cli := .version "reth Version: 1.2.3"
    rpc_url := "http://127.0.0.1:8545"
    rpcVersion := none
    rpcVersionErr := some "rpc web3_clientVersion connection error (url=http://127.0.0.1:8545): refused"
    chainId := none
    chainIdErr := some "rpc eth_chainId connection error (url=http://127.0.0.1:8545): refused"
    netVersion := none
    netVersionErr := some "rpc net_version connection error (url=http://127.0.0.1:8545): refused" }

/-- An EVM probe round where the RPC reports an empty client version while
the CLI reports a real one, and the chain resolves fully. -/
def rethEmptyRpcCliIn : RethInputs :=
  { cli := .version "reth Version: 2.0.0"
    rpc_url := "http://127.0.0.1:8545"
    rpcVersion := some ""
    rpcVersionErr := none
    chainId := some 1
    chainIdErr := none
    netVersion := some "1"
    netVersionErr := none }

/-- An EVM probe round where both the RPC and the CLI report non-empty
client versions. -/
def rethBothVersionsIn : RethInputs :=
  { cli := .version "reth Version: 2.0.0"
    rpc_url := "http://127.0.0.1:8545"
    rpcVersion := some "reth/v1.0.0"
    rpcVersionErr := none
    chainId := some 1
    chainIdErr := none
    netVersion := some "1"
    netVersionErr := none }

/-- An Aptos probe round whose response exposes the chain id header for
mainnet but no version header and no body. -/
def aptosChainOnlyIn : AptosInputs :=
  { rpc_url := "http://127.0.0.1:8080"
    body := none
    headers := [("x-aptos-chain-id", "1")]
    probeErrs := [] }

/-- A Substrate probe round where every RPC probe failed. -/
def subAllFailIn : SubstrateInputs :=
  { rpc_url := "http://127.0.0.1:9933"
    systemVersion := none
    systemVersionErr := some "rpc system_version connection error (url=http://127.0.0.1:9933): refused"
    systemChain := none
    systemChainErr := some "rpc system_chain connection error (url=http://127.0.0.1:9933): refused"
    genesisHash := none
    genesisHashErr := some "rpc chain_getBlockHash connection error (url=http://127.0.0.1:9933): refused"
    systemName := none
    systemNameErr := some "rpc system_name connection error (url=http://127.0.0.1:9933): refused" }

/-- A two-collector registry used to exercise the lookup error. -/
def regTwo : List CollectorSpec :=
  [⟨"reth", "0.1.1", .failedErr "x"⟩, ⟨"aptos", "0.1.0", .failedErr "y"⟩]

/-! Helper lemmas about the dictionary model. -/

theorem dictUpdate_cons (d : Dict) (p : String × JVal) (ex : Dict) :
    dictUpdate d (p :: ex) = dictUpdate (dictSet d p.1 p.2) ex := rfl

theorem dictGet_dictSet_ne {k k' : String} (d : Dict) (v : JVal) (h : k ≠ k') :
    dictGet (dictSet d k v) k' = dictGet d k' := by
  induction d with
  | nil => simp [dictSet, dictGet, beq_iff_eq, h]
  | cons p d ih =>
    by_cases hp : p.1 = k
    · by_cases hk2 : p.1 = k'
      · exact absurd (hp ▸ hk2) h
      · simp [dictSet, dictGet, beq_iff_eq, hp, hk2, h]
    · by_cases hk2 : p.1 = k'
      · simp [dictSet, dictGet, beq_iff_eq, hp, hk2, Ne.symm h]
      · simp [dictSet, dictGet, beq_iff_eq, hp, hk2, ih]

theorem containsKey_dictSet_ne {k0 k : String} (d : Dict) (v : JVal) (h : k0 ≠ k) :
    containsKey (dictSet d k0 v) k = containsKey d k := by
  induction d with
  | nil => simp [dictSet, containsKey, beq_iff_eq, h]
  | cons q d ih =>
    by_cases hq : q.1 = k0
    · simp [dictSet, containsKey, beq_iff_eq, hq, h]
    · simp [dictSet, containsKey, beq_iff_eq, hq, ih]

theorem containsKey_dictSet_self (d : Dict) (k : String) (v : JVal) :
    containsKey (dictSet d k v) k = true := by
  induction d with
  | nil => simp [dictSet, containsKey]
  | cons q d ih =>
    by_cases hq : q.1 = k
    · simp [dictSet, containsKey, beq_iff_eq, hq]
    · simp [dictSet, containsKey, beq_iff_eq, hq, ih]

theorem containsKey_dictSet_of_contains {d : Dict} {k : String} (k0 : String) (v : JVal)
    (h : containsKey d k = true) : containsKey (dictSet d k0 v) k = true := by
  by_cases hk : k0 = k
  · subst hk; exact containsKey_dictSet_self d k0 v
  · rw [containsKey_dictSet_ne d v hk]; exact h

theorem dictGet_dictUpdate_not_in (ex : Dict) {k : String} (d : Dict)
    (h : containsKey ex k = false) :
    dictGet (dictUpdate d ex) k = dictGet d k := by
  induction ex generalizing d with
  | nil => rfl
  | cons p ex ih =>
    rw [containsKey] at h
    rcases Bool.or_eq_false_iff.mp h with ⟨h1, h2⟩
    rw [dictUpdate_cons, ih _ h2, dictGet_dictSet_ne d p.2 (beq_eq_false_iff_ne.mp h1)]

theorem containsKey_dictUpdate_not_in (ex : Dict) {k : String} (d : Dict)
    (h : containsKey ex k = false) :
    containsKey (dictUpdate d ex) k = containsKey d k := by
  induction ex generalizing d with
  | nil => rfl
  | cons p ex ih =>
    rw [containsKey] at h
    rcases Bool.or_eq_false_iff.mp h with ⟨h1, h2⟩
    rw [dictUpdate_cons, ih _ h2, containsKey_dictSet_ne d p.2 (beq_eq_false_iff_ne.mp h1)]

theorem containsKey_dictUpdate_of_contains (ex : Dict) {k : String} {d : Dict}
    (h : containsKey d k = true) : containsKey (dictUpdate d ex) k = true := by
  induction ex generalizing d with
  | nil => exact h
  | cons p ex ih => exact ih (containsKey_dictSet_of_contains p.1 p.2 h)

/-! Congruence lemmas: two metadata dicts with the same key structure that
agree outside the timestamp keys keep agreeing under writes and merges. -/

theorem keysOf_dictSet_congr {m1 m2 : Dict} (k : String) (v : JVal)
    (h : keysOf m1 = keysOf m2) : keysOf (dictSet m1 k v) = keysOf (dictSet m2 k v) := by
  induction m1 generalizing m2 with
  | nil =>
    cases m2 with
    | nil => rfl
    | cons q d2 => simp [keysOf] at h
  | cons p d1 ih =>
    cases m2 with
    | nil => simp [keysOf] at h
    | cons q d2 =>
      simp only [keysOf, List.map_cons, List.cons.injEq] at h
      obtain ⟨h1, h2⟩ := h
      by_cases hk : p.1 = k
      · have hq : q.1 = k := by rw [← h1]; exact hk
        simp [dictSet, beq_iff_eq, hk, hq, keysOf, h2]
      · have hq : ¬(q.1 = k) := by rw [← h1]; exact hk
        simp only [dictSet, beq_iff_eq]
        rw [if_neg hk, if_neg hq]
        simp only [keysOf, List.map_cons, List.cons.injEq]
        exact ⟨h1, ih h2⟩

theorem stripTsMeta_dictSet_congr {m1 m2 : Dict} (k : String) (v : JVal)
    (hkeys : keysOf m1 = keysOf m2) (hstrip : stripTsMeta m1 = stripTsMeta m2) :
    stripTsMeta (dictSet m1 k v) = stripTsMeta (dictSet m2 k v) := by
  induction m1 generalizing m2 with
  | nil =>
    cases m2 with
    | nil => rfl
    | cons q d2 => simp [keysOf] at hkeys
  | cons p d1 ih =>
    cases m2 with
    | nil => simp [keysOf] at hkeys
    | cons q d2 =>
      simp only [keysOf, List.map_cons, List.cons.injEq] at hkeys
      obtain ⟨h1, h2⟩ := hkeys
      have hkeep : keepTs p = keepTs q := by simp [keepTs, h1]
      by_cases hk : p.1 = k
      · have hq : q.1 = k := by rw [← h1]; exact hk
        rw [show dictSet (p :: d1) k v = (k, v) :: d1 by simp [dictSet, beq_iff_eq, hk],
            show dictSet (q :: d2) k v = (k, v) :: d2 by simp [dictSet, beq_iff_eq, hq]]
        have hkv : keepTs (k, v) = keepTs p := by simp [keepTs, hk]
        cases hkp : keepTs p with
        | false =>
          have hh := hstrip
          unfold stripTsMeta at hh ⊢
          rw [List.filter_cons, List.filter_cons, if_neg (by rw [hkp]; simp),
              if_neg (by rw [← hkeep, hkp]; simp)] at hh
          rw [List.filter_cons, List.filter_cons, if_neg (by rw [hkv, hkp]; simp),
              if_neg (by rw [hkv, hkp]; simp)]
          exact hh
        | true =>
          have hh := hstrip
          unfold stripTsMeta at hh ⊢
          rw [List.filter_cons, List.filter_cons, if_pos (by rw [hkp]),
              if_pos (by rw [← hkeep, hkp])] at hh
          injection hh with hpq htl
          rw [List.filter_cons, List.filter_cons, if_pos (by rw [hkv, hkp]),
              if_pos (by rw [hkv, hkp]), htl]
      · have hq : ¬(q.1 = k) := by rw [← h1]; exact hk
        rw [show dictSet (p :: d1) k v = p :: dictSet d1 k v by simp [dictSet, beq_iff_eq, hk],
            show dictSet (q :: d2) k v = q :: dictSet d2 k v by simp [dictSet, beq_iff_eq, hq]]
        cases hkp : keepTs p with
        | false =>
          have hh := hstrip
          unfold stripTsMeta at hh ⊢
          rw [List.filter_cons, List.filter_cons, if_neg (by rw [hkp]; simp),
              if_neg (by rw [← hkeep, hkp]; simp)] at hh
          rw [List.filter_cons, List.filter_cons, if_neg (by rw [hkp]; simp),
              if_neg (by rw [← hkeep, hkp]; simp)]
          exact ih h2 hh
        | true =>
          have hh := hstrip
          unfold stripTsMeta at hh ⊢
          rw [List.filter_cons, List.filter_cons, if_pos (by rw [hkp]),
              if_pos (by rw [← hkeep, hkp])] at hh
          injection hh with hpq htl
          rw [List.filter_cons, List.filter_cons, if_pos (by rw [hkp]),
              if_pos (by rw [← hkeep, hkp]), hpq]
          exact congrArg (List.cons q) (ih h2 htl)

theorem dictUpdate_strip_congr (ex : Dict) {m1 m2 : Dict}
    (hkeys : keysOf m1 = keysOf m2) (hstrip : stripTsMeta m1 = stripTsMeta m2) :
    stripTsMeta (dictUpdate m1 ex) = stripTsMeta (dictUpdate m2 ex) := by
  induction ex generalizing m1 m2 with
  | nil => exact hstrip
  | cons p ex ih =>
    rw [dictUpdate_cons, dictUpdate_cons]
    exact ih (keysOf_dictSet_congr p.1 p.2 hkeys) (stripTsMeta_dictSet_congr p.1 p.2 hkeys hstrip)

theorem envMeta_keys_congr (NAME VERSION : String) (o : CollectOutcome) (t1 t2 : String) :
    keysOf (envMeta NAME VERSION o t1) = keysOf (envMeta NAME VERSION o t2) := by
  unfold envMeta
  split
  · exact keysOf_dictSet_congr _ _ rfl
  · rfl

theorem envMeta_strip_congr (NAME VERSION : String) (o : CollectOutcome) (t1 t2 : String) :
    stripTsMeta (envMeta NAME VERSION o t1) = stripTsMeta (envMeta NAME VERSION o t2) := by
  unfold envMeta
  split
  · exact stripTsMeta_dictSet_congr _ _ rfl rfl
  · rfl

/-! Lookups into the stamped metadata block. -/

theorem dictGet_envMeta_status (NAME VERSION : String) (o : CollectOutcome) (t : String) :
    dictGet (envMeta NAME VERSION o t) "last_collect_status" = some (.str (outcomeStatus o)) := by
  unfold envMeta
  split
  · rw [dictGet_dictSet_ne _ _ (by decide)]; rfl
  · rfl

theorem dictGet_envMeta_errors (NAME VERSION : String) (o : CollectOutcome) (t : String) :
    dictGet (envMeta NAME VERSION o t) "last_collect_errors" = some (.list (envErrors o)) := by
  unfold envMeta
  split
  · rw [dictGet_dictSet_ne _ _ (by decide)]; rfl
  · rfl

theorem containsKey_envMeta_success (NAME VERSION : String) (o : CollectOutcome) (t : String) :
    containsKey (envMeta NAME VERSION o t) "last_successful_collect_at"
      = (outcomeStatus o == "success") := by
  unfold envMeta
  split
  · next h => rw [h]; exact containsKey_dictSet_self _ _ _
  · next h =>
    have hb : (outcomeStatus o == "success") = false := by
      revert h; cases (outcomeStatus o == "success") <;> simp
    rw [hb]; rfl

theorem containsKey_envMeta_attempt (NAME VERSION : String) (o : CollectOutcome) (t : String) :
    containsKey (envMeta NAME VERSION o t) "last_collect_attempt_at" = true := by
  unfold envMeta
  split
  · exact containsKey_dictSet_of_contains _ _ rfl
  · rfl

/-! Membership lemmas for the string sort used by the registry diagnostics. -/

theorem mem_strInsert (a x : String) (l : List String) :
    x ∈ strInsert a l ↔ x = a ∨ x ∈ l := by
  induction l with
  | nil => simp [strInsert]
  | cons b l ih =>
    by_cases hb : strLeB a b = true
    · simp [strInsert, hb]
    · simp only [strInsert, if_neg hb, List.mem_cons, ih]
      tauto

theorem mem_strSort (x : String) (l : List String) : x ∈ strSort l ↔ x ∈ l := by
  induction l with
  | nil => simp [strSort]
  | cons b l ih => simp [strSort, mem_strInsert, ih]

/-! Branch characterisations of the EVM-family decision logic. -/

theorem rethHaveAnyInfo_iff (i : RethInputs) :
    rethHaveAnyInfo i = true ↔
      (truthyS i.rpcVersion = true ∨ truthyS (cliVersionOpt i.cli) = true ∨
       i.chainId.isSome = true ∨ i.netVersion.isSome = true) := by
  simp only [rethHaveAnyInfo, Bool.or_eq_true]
  tauto

theorem rethComplete_eq_false_iff (i : RethInputs) :
    (rethWorkloadComplete i && rethBlockchainComplete i) = false ↔
      (rethClientVersion i = "unknown" ∨ i.chainId = none ∨ rethNetworkName i = "unknown") := by
  cases hc : i.chainId <;> (simp [rethWorkloadComplete, rethBlockchainComplete, hc]; try tauto)

theorem collect_reth_failed (name : String) {i : RethInputs}
    (h : rethHaveAnyInfo i = false) :
    collect_reth name i = .failedErr (joinSemicolonOr (rethMessages i) "no RPC or CLI info") := by
  simp [collect_reth, h]

theorem collect_reth_incomplete (name : String) {i : RethInputs}
    (h1 : rethHaveAnyInfo i = true)
    (h2 : (rethWorkloadComplete i && rethBlockchainComplete i) = false) :
    collect_reth name i = .incomplete
      (listOrDefault (rethMessages i ++ rethMissingMessages i) ["Partial data only."])
      (some ⟨rethBlockchain i, rethWorkload name i⟩) := by
  simp [collect_reth, h1, h2]

theorem collect_reth_success (name : String) {i : RethInputs}
    (h1 : rethHaveAnyInfo i = true)
    (h2 : (rethWorkloadComplete i && rethBlockchainComplete i) = true) :
    collect_reth name i = .success ⟨rethBlockchain i, rethWorkload name i⟩ := by
  simp [collect_reth, h1, h2]

theorem dictGet_rethWorkload_version (name : String) (i : RethInputs) :
    dictGet (rethWorkload name i) "client_version" = some (.str (rethClientVersion i)) := rfl

theorem dictGet_rethBlockchain_network (i : RethInputs) :
    dictGet (rethBlockchain i) "blockchain_network_name" = some (.str (rethNetworkName i)) := rfl

/-! Lookups through the extra-metadata merge. -/

theorem dictGet_envMetaX_not_in (NAME VERSION : String) (o : CollectOutcome) (t : String)
    (extra : Option Dict) (k : String)
    (hex : ∀ ex, extra = some ex → containsKey ex k = false) :
    dictGet (envMetaX NAME VERSION o t extra) k = dictGet (envMeta NAME VERSION o t) k := by
  unfold envMetaX
  cases extra with
  | none => rfl
  | some ex =>
    by_cases he : ex.isEmpty
    · simp only [if_pos he]
    · simp only [if_neg he]
      exact dictGet_dictUpdate_not_in ex _ (hex ex rfl)

theorem containsKey_envMetaX_not_in (NAME VERSION : String) (o : CollectOutcome) (t : String)
    (extra : Option Dict) (k : String)
    (hex : ∀ ex, extra = some ex → containsKey ex k = false) :
    containsKey (envMetaX NAME VERSION o t extra) k = containsKey (envMeta NAME VERSION o t) k := by
  unfold envMetaX
  cases extra with
  | none => rfl
  | some ex =>
    by_cases he : ex.isEmpty
    · simp only [if_pos he]
    · simp only [if_neg he]
      exact containsKey_dictUpdate_not_in ex _ (hex ex rfl)

theorem containsKey_envMetaX_attempt (NAME VERSION : String) (o : CollectOutcome) (t : String)
    (extra : Option Dict) :
    containsKey (envMetaX NAME VERSION o t extra) "last_collect_attempt_at" = true := by
  unfold envMetaX
  cases extra with
  | none => exact containsKey_envMeta_attempt NAME VERSION o t
  | some ex =>
    by_cases he : ex.isEmpty
    · simp only [if_pos he]
      exact containsKey_envMeta_attempt NAME VERSION o t
    · simp only [if_neg he]
      exact containsKey_dictUpdate_of_contains ex (containsKey_envMeta_attempt NAME VERSION o t)

/-! Branch characterisations of the Substrate decision logic. -/

theorem collect_substrate_eq (client_name : Option String) (i : SubstrateInputs)
    (cn : String) (ms : List String)
    (hname : substrateClientName client_name i = (cn, ms)) :
    collect_substrate client_name i =
      (if !(substrateHaveAnyInfo cn i) then
        .failedErr (joinSemicolonOr (substrateBaseMessages i ++ ms) "no RPC info from node")
      else if !(substrateWorkloadComplete cn i && substrateBlockchainComplete i) then
        .incomplete
          (listOrDefault ((substrateBaseMessages i ++ ms) ++ substrateMissingMessages cn i)
            ["Partial data only."])
          (some ⟨substrateBlockchain i, substrateWorkload cn i⟩)
      else .success ⟨substrateBlockchain i, substrateWorkload cn i⟩) := by
  unfold collect_substrate
  rw [hname]

theorem substrate_keep_name {cn : String} (i : SubstrateInputs)
    (h : (pyStripChars cn.toList).isEmpty = false) :
    substrateClientName (some cn) i = (cn, []) := by
  have h4 : ¬((pyStripChars cn.toList).isEmpty = true) := by rw [h]; simp
  simp only [substrateClientName]
  rw [if_neg h4]

theorem substrate_nonblank_ne_empty {cn : String}
    (h : (pyStripChars cn.toList).isEmpty = false) : cn ≠ "" := by
  intro he
  subst he
  exact absurd h (by decide)

/-! Claim C1. -/

/-- C1 counterexample: the Aptos collector classifies a run as success while
emitting the sentinel client_version "unknown" - a response exposing only
the mainnet chain-id header satisfies blockchain completeness, and the
workload completeness flag is the constant True (aptos.py line 144), so the
original claim is false for the Aptos collector. -/
theorem C1_counterexample_aptos :
    outcomeStatus (aptos_collect aptosChainOnlyIn) = "success" ∧
    emittedClientVersion (aptos_collect aptosChainOnlyIn) = some (.str "unknown") :=
  ⟨rfl, rfl⟩

/-- C1 (amended): for the EVM-family collectors built on collect_reth, a
success outcome does resolve every required field to a non-sentinel value:
the emitted client_version is never "unknown", the network name is never
"unknown", and the chain id was resolved.  The Aptos collector is exempt:
its workload-completeness check is the constant True, so its success
outcome only guarantees the blockchain fields. -/
theorem C1_reth_success_nonsentinel (name : String) (i : RethInputs) (r : CollectResult)
    (h : collect_reth name i = .success r) :
    dictGet r.workload "client_version" ≠ some (.str "unknown") ∧
    dictGet r.blockchain "blockchain_network_name" ≠ some (.str "unknown") ∧
    i.chainId.isSome = true := by
  by_cases h1 : rethHaveAnyInfo i = true
  · by_cases h2 : (rethWorkloadComplete i && rethBlockchainComplete i) = true
    · rw [collect_reth_success name h1 h2] at h
      injection h with hr
      subst hr
      rw [Bool.and_eq_true] at h2
      obtain ⟨hw, hb⟩ := h2
      refine ⟨?_, ?_, ?_⟩
      · rw [dictGet_rethWorkload_version]
        intro hc
        injection hc with hc1
        injection hc1 with hc2
        simp [rethWorkloadComplete, hc2] at hw
      · rw [dictGet_rethBlockchain_network]
        intro hc
        injection hc with hc1
        injection hc1 with hc2
        simp [rethBlockchainComplete, hc2] at hb
      · rw [rethBlockchainComplete, Bool.and_eq_true] at hb
        exact hb.1
    · have h2f : (rethWorkloadComplete i && rethBlockchainComplete i) = false := by
        revert h2; cases (rethWorkloadComplete i && rethBlockchainComplete i) <;> simp
      rw [collect_reth_incomplete name h1 h2f] at h
      cases h
  · have h1f : rethHaveAnyInfo i = false := by
      revert h1; cases rethHaveAnyInfo i <;> simp
    rw [collect_reth_failed name h1f] at h
    cases h

/-- C1 witness: on a fully successful probe round the reth-family success
payload carries a real client version. -/
theorem C1_witness :
    dictGet rethOkPayload.workload "client_version" ≠ some (JVal.str "unknown") :=
  (C1_reth_success_nonsentinel "reth" rethOkIn rethOkPayload rfl).1

/-! Claim C2. -/

/-- C2 counterexample: for the unmapped numeric chain id 2 with a null
net_version, the mapping function returns the sentinel "unknown", not the
synthesized label "network-2" - the numeric chain id never feeds the
synthesized-label branch, which is reached only through net_version. -/
theorem C2_counterexample :
    _map_network_name (some 2) none = "unknown" ∧
    _map_network_name (some 2) none ≠ "network-2" :=
  ⟨rfl, by decide⟩

/-- C2 (amended): for an unmapped numeric chain id n, the mapping function
with a null string version returns "unknown"; the synthesized label
network-<n> is produced when the string version parses as the unmapped
numeric n (for example mapNetworkName(null, str(n))). -/
theorem C2_map_network_name_amended (n : Int) (s : String)
    (hp : pyToInt? s = some n) (hm : ethMapping n = none) :
    _map_network_name (some n) none = "unknown" ∧
    _map_network_name none (some s) = "network-" ++ toString n := by
  constructor
  · show (match ethMapping n with
      | some name => name
      | none => mapNetFromVersion none) = "unknown"
    rw [hm]
    rfl
  · have hsne : s ≠ "" := by
      intro he
      subst he
      rw [show pyToInt? "" = none from rfl] at hp
      cases hp
    have hs : (s == "") = false := beq_eq_false_iff_ne.mpr hsne
    show mapNetFromVersion (some s) = "network-" ++ toString n
    simp [mapNetFromVersion, hs, hp, hm]

/-- C2 witness: chain id 2 is unmapped and the string version "2" produces
the synthesized label. -/
theorem C2_witness :
    pyToInt? "2" = some 2 ∧ ethMapping 2 = none ∧
    _map_network_name none (some "2") = "network-" ++ toString (2 : Int) :=
  ⟨by decide, by decide, (C2_map_network_name_amended 2 "2" (by decide) (by decide)).2⟩

/-! Claim C3. -/

/-- C3 counterexample: a probe round whose only non-null result is an empty
web3_clientVersion string is classified failed, although a probe did
produce a non-null result - line 127 tests the two version strings by
truthiness, so the existence check as the claim states it (non-null) does
not hold. -/
theorem C3_counterexample :
    rethEmptyRpcIn.rpcVersion = some "" ∧
    isFailedOutcome (collect_reth "reth" rethEmptyRpcIn) = true :=
  ⟨rfl, rfl⟩

/-- C3 (amended): the EVM-family outcome is a three-way decision evaluated
in this order - if no probe produced a truthy result (non-null, and
additionally non-empty for the two version strings) the outcome is failed
with the accumulated error messages and no payload; otherwise, if the
client version is the unknown sentinel or the chain id is unresolved or the
network name is "unknown", the outcome is partial; otherwise success with
the full payload.  The existence check is made strictly before the
completeness check. -/
theorem C3_reth_decision_order (name : String) (i : RethInputs) :
    (¬(truthyS i.rpcVersion = true ∨ truthyS (cliVersionOpt i.cli) = true ∨
        i.chainId.isSome = true ∨ i.netVersion.isSome = true) →
      collect_reth name i = .failedErr (joinSemicolonOr (rethMessages i) "no RPC or CLI info")) ∧
    ((truthyS i.rpcVersion = true ∨ truthyS (cliVersionOpt i.cli) = true ∨
        i.chainId.isSome = true ∨ i.netVersion.isSome = true) →
      (rethClientVersion i = "unknown" ∨ i.chainId = none ∨ rethNetworkName i = "unknown") →
      collect_reth name i = .incomplete
        (listOrDefault (rethMessages i ++ rethMissingMessages i) ["Partial data only."])
        (some ⟨rethBlockchain i, rethWorkload name i⟩)) ∧
    ((truthyS i.rpcVersion = true ∨ truthyS (cliVersionOpt i.cli) = true ∨
        i.chainId.isSome = true ∨ i.netVersion.isSome = true) →
      ¬(rethClientVersion i = "unknown" ∨ i.chainId = none ∨ rethNetworkName i = "unknown") →
      collect_reth name i = .success ⟨rethBlockchain i, rethWorkload name i⟩) := by
  refine ⟨?_, ?_, ?_⟩
  · intro h
    have h1 : rethHaveAnyInfo i = false := by
      rcases Bool.eq_false_or_eq_true (rethHaveAnyInfo i) with ht | hf
      · exact absurd ((rethHaveAnyInfo_iff i).mp ht) h
      · exact hf
    exact collect_reth_failed name h1
  · intro h hin
    exact collect_reth_incomplete name ((rethHaveAnyInfo_iff i).mpr h)
      ((rethComplete_eq_false_iff i).mpr hin)
  · intro h hnin
    have h2 : (rethWorkloadComplete i && rethBlockchainComplete i) = true := by
      rcases Bool.eq_false_or_eq_true (rethWorkloadComplete i && rethBlockchainComplete i) with ht | hf
      · exact ht
      · exact absurd ((rethComplete_eq_false_iff i).mp hf) hnin
    exact collect_reth_success name ((rethHaveAnyInfo_iff i).mpr h) h2

/-- C3 witness: the success branch at a fully successful probe round. -/
theorem C3_witness :
    collect_reth "reth" rethOkIn
      = .success ⟨rethBlockchain rethOkIn, rethWorkload "reth" rethOkIn⟩ :=
  (C3_reth_decision_order "reth" rethOkIn).2.2 (Or.inl (by decide)) (by decide)

/-! Claim C4. -/

/-- C4 counterexample: the collector named "reth" (reth.py) raises its
partial outcome without attaching the assembled payload (line 141), so when
only the CLI probe succeeds the envelope wipes blockchain and workload to
empty mappings even though a client version was resolved. -/
theorem C4_counterexample :
    outcomeStatus (rethPyCollect rethCliOnlyIn) = "partial" ∧
    cliVersionOpt rethCliOnlyIn.cli = some "reth Version: 1.2.3" ∧
    (buildEnvelope "reth" "0.1.1" (rethPyCollect rethCliOnlyIn)
        "2024-01-01T00:00:00+00:00" none).blockchain = [] ∧
    (buildEnvelope "reth" "0.1.1" (rethPyCollect rethCliOnlyIn)
        "2024-01-01T00:00:00+00:00" none).workload = [] :=
  ⟨rfl, rfl, rfl, rfl⟩

/-- C4 (amended): for the EVM-family collectors built on collect_reth
(op-reth, bera-reth), a partial run attaches the assembled payload, and the
envelope keeps the resolved blockchain and workload values (they are never
wiped to empty mappings).  The superseded collector registered as "reth"
raises its partial error without a payload, so its envelope sections are
emptied - the claim fails for that collector. -/
theorem C4_reth_common_partial_keeps_payload (name NAME VERSION t : String) (i : RethInputs)
    (extra : Option Dict)
    (hAny : rethHaveAnyInfo i = true)
    (hInc : (rethWorkloadComplete i && rethBlockchainComplete i) = false) :
    outcomeStatus (collect_reth name i) = "partial" ∧
    (buildEnvelope NAME VERSION (collect_reth name i) t extra).blockchain = rethBlockchain i ∧
    (buildEnvelope NAME VERSION (collect_reth name i) t extra).workload = rethWorkload name i ∧
    rethWorkload name i ≠ [] ∧ rethBlockchain i ≠ [] := by
  rw [collect_reth_incomplete name hAny hInc]
  exact ⟨rfl, rfl, rfl, by simp [rethWorkload], by simp [rethBlockchain]⟩

/-- C4 witness: the op-reth collector keeps the CLI-resolved workload in a
partial envelope. -/
theorem C4_witness :
    outcomeStatus (collect_reth "op-reth" rethCliOnlyIn) = "partial" ∧
    (buildEnvelope "op-reth" "0.1.2" (collect_reth "op-reth" rethCliOnlyIn)
        "2024-01-01T00:00:00+00:00" none).blockchain = rethBlockchain rethCliOnlyIn ∧
    (buildEnvelope "op-reth" "0.1.2" (collect_reth "op-reth" rethCliOnlyIn)
        "2024-01-01T00:00:00+00:00" none).workload = rethWorkload "op-reth" rethCliOnlyIn ∧
    rethWorkload "op-reth" rethCliOnlyIn ≠ [] ∧ rethBlockchain rethCliOnlyIn ≠ [] :=
  C4_reth_common_partial_keeps_payload "op-reth" "op-reth" "0.1.2"
    "2024-01-01T00:00:00+00:00" rethCliOnlyIn none rfl rfl

/-! Claim C5. -/

/-- C5 (confirmed): when every probe of an EVM-family run returns an error,
the collector raises the failed outcome, and the envelope records status
"failed", empty blockchain and workload objects, and a non-empty
last_collect_errors list (the single repr of the raised
CollectorFailedError).  The caller-supplied extra metadata is assumed not
to shadow the two metadata keys the claim speaks about. -/
theorem C5_all_probes_fail_envelope (name NAME VERSION t m : String) (i : RethInputs)
    (extra : Option Dict)
    (hcli : i.cli = .failMsg m) (hrpc : i.rpcVersion = none)
    (hcid : i.chainId = none) (hnet : i.netVersion = none)
    (hex : ∀ ex, extra = some ex → (containsKey ex "last_collect_status" = false ∧
      containsKey ex "last_collect_errors" = false)) :
    dictGet (buildEnvelope NAME VERSION (collect_reth name i) t extra).metadata
        "last_collect_status" = some (.str "failed") ∧
    (buildEnvelope NAME VERSION (collect_reth name i) t extra).blockchain = [] ∧
    (buildEnvelope NAME VERSION (collect_reth name i) t extra).workload = [] ∧
    (∃ errs, dictGet (buildEnvelope NAME VERSION (collect_reth name i) t extra).metadata
        "last_collect_errors" = some (.list errs) ∧ errs ≠ []) := by
  have h1 : rethHaveAnyInfo i = false := by
    simp [rethHaveAnyInfo, hcli, hrpc, hcid, hnet, truthyS, cliVersionOpt]
  rw [collect_reth_failed name h1]
  refine ⟨?_, rfl, rfl, ?_⟩
  · rw [show (buildEnvelope NAME VERSION
        (.failedErr (joinSemicolonOr (rethMessages i) "no RPC or CLI info")) t extra).metadata
        = envMetaX NAME VERSION
            (.failedErr (joinSemicolonOr (rethMessages i) "no RPC or CLI info")) t extra from rfl,
      dictGet_envMetaX_not_in _ _ _ _ _ _ (fun ex h => (hex ex h).1),
      dictGet_envMeta_status]
    rfl
  · refine ⟨[reprFailedError (joinSemicolonOr (rethMessages i) "no RPC or CLI info")], ?_, by simp⟩
    rw [show (buildEnvelope NAME VERSION
        (.failedErr (joinSemicolonOr (rethMessages i) "no RPC or CLI info")) t extra).metadata
        = envMetaX NAME VERSION
            (.failedErr (joinSemicolonOr (rethMessages i) "no RPC or CLI info")) t extra from rfl,
      dictGet_envMetaX_not_in _ _ _ _ _ _ (fun ex h => (hex ex h).2),
      dictGet_envMeta_errors]
    rfl

/-- C5 witness: a concrete all-probes-failed run through the envelope
builder. -/
theorem C5_witness :
    dictGet (buildEnvelope "op-reth" "0.1.2" (collect_reth "op-reth" rethAllFailIn)
        "2024-01-01T00:00:00+00:00" none).metadata
        "last_collect_status" = some (.str "failed") ∧
    (buildEnvelope "op-reth" "0.1.2" (collect_reth "op-reth" rethAllFailIn)
        "2024-01-01T00:00:00+00:00" none).blockchain = [] ∧
    (buildEnvelope "op-reth" "0.1.2" (collect_reth "op-reth" rethAllFailIn)
        "2024-01-01T00:00:00+00:00" none).workload = [] ∧
    (∃ errs, dictGet (buildEnvelope "op-reth" "0.1.2" (collect_reth "op-reth" rethAllFailIn)
        "2024-01-01T00:00:00+00:00" none).metadata
        "last_collect_errors" = some (.list errs) ∧ errs ≠ []) :=
  C5_all_probes_fail_envelope "op-reth" "op-reth" "0.1.2" "2024-01-01T00:00:00+00:00"
    "reth binary not found (set RETH_BIN or install reth)" rethAllFailIn none
    rfl rfl rfl rfl (fun _ h => nomatch h)

/-! Claim C6. -/

/-- C6 counterexample: a reachable JSON-RPC response can report an empty
client-version string; Python or-chaining treats it as absent, so with
both probes yielding a version string (RPC empty, CLI non-empty) the
emitted client_version equals the CLI value, not the RPC one. -/
theorem C6_counterexample :
    rethEmptyRpcCliIn.rpcVersion = some "" ∧
    cliVersionOpt rethEmptyRpcCliIn.cli = some "reth Version: 2.0.0" ∧
    emittedClientVersion (collect_reth "reth" rethEmptyRpcCliIn)
      = some (.str "reth Version: 2.0.0") :=
  ⟨rfl, rfl, rfl⟩

/-- C6 (amended): when the RPC probe yields a non-empty version string it
always wins; when the RPC value is falsy (absent or empty) and the CLI
yields a non-empty version it is used; when both are falsy the sentinel
"unknown" is used; and any payload emitted by collect_reth carries exactly
this merged value as its workload client_version. -/
theorem C6_rpc_preference (name : String) (i : RethInputs) :
    (∀ s, i.rpcVersion = some s → s ≠ "" → rethClientVersion i = s) ∧
    (truthyS i.rpcVersion = false →
      ∀ c, cliVersionOpt i.cli = some c → c ≠ "" → rethClientVersion i = c) ∧
    (truthyS i.rpcVersion = false → truthyS (cliVersionOpt i.cli) = false →
      rethClientVersion i = "unknown") ∧
    (∀ r, payloadOf (collect_reth name i) = some r →
      dictGet r.workload "client_version" = some (.str (rethClientVersion i))) := by
  refine ⟨?_, ?_, ?_, ?_⟩
  · intro s hs hne
    have hts : truthyS (some s) = true := by simp [truthyS, hne]
    simp [rethClientVersion, pyOr, pyOrD, hs, hts, hne]
  · intro hrf c hc hcne
    simp [rethClientVersion, pyOr, pyOrD, hrf, hc, hcne]
  · intro hrf hcf
    cases hcv : cliVersionOpt i.cli with
    | none => simp [rethClientVersion, pyOr, pyOrD, hrf, hcv]
    | some c =>
      have hce : c = "" := by
        rw [hcv] at hcf
        simpa [truthyS] using hcf
      subst hce
      simp [rethClientVersion, pyOr, pyOrD, hrf, hcv]
  · intro r hr
    by_cases h1 : rethHaveAnyInfo i = true
    · by_cases h2 : (rethWorkloadComplete i && rethBlockchainComplete i) = true
      · rw [collect_reth_success name h1 h2] at hr
        simp only [payloadOf, Option.some.injEq] at hr
        rw [← hr]
        exact dictGet_rethWorkload_version name i
      · have h2f : (rethWorkloadComplete i && rethBlockchainComplete i) = false := by
          revert h2; cases (rethWorkloadComplete i && rethBlockchainComplete i) <;> simp
        rw [collect_reth_incomplete name h1 h2f] at hr
        simp only [payloadOf, Option.some.injEq] at hr
        rw [← hr]
        exact dictGet_rethWorkload_version name i
    · have h1f : rethHaveAnyInfo i = false := by
        revert h1; cases rethHaveAnyInfo i <;> simp
      rw [collect_reth_failed name h1f] at hr
      cases hr

/-- C6 witness: with both versions available and the RPC one non-empty, the
merged client version is the RPC value. -/
theorem C6_witness :
    rethClientVersion rethBothVersionsIn = "reth/v1.0.0" :=
  (C6_rpc_preference "reth" rethBothVersionsIn).1 "reth/v1.0.0" rfl (by decide)

/-! Claim C7. -/

/-- C7 counterexample: the extra-metadata merge of run_collector is
last-write-wins over standard keys, so a caller can inject
last_successful_collect_at into a failed envelope - the presence of the key
is then not equivalent to a success status. -/
theorem C7_counterexample :
    containsKey (buildEnvelope "reth" "0.1.1" (.failedErr "boom") "2024-05-05T00:00:00+00:00"
        (some [("last_successful_collect_at", JVal.str "2099-01-01T00:00:00+00:00")])).metadata
      "last_successful_collect_at" = true ∧
    dictGet (buildEnvelope "reth" "0.1.1" (.failedErr "boom") "2024-05-05T00:00:00+00:00"
        (some [("last_successful_collect_at", JVal.str "2099-01-01T00:00:00+00:00")])).metadata
      "last_collect_status" = some (.str "failed") :=
  ⟨rfl, rfl⟩

/-- C7 (amended): provided the caller-supplied extra metadata does not
itself carry the keys last_successful_collect_at or last_collect_status
(extra metadata merges last-write-wins and may override any standard key),
every envelope contains last_successful_collect_at exactly when its
last_collect_status is "success", and every envelope - for any extra
metadata - contains last_collect_attempt_at. -/
theorem C7_success_stamp (NAME VERSION t : String) (o : CollectOutcome) (extra : Option Dict)
    (hex : ∀ ex, extra = some ex →
      (containsKey ex "last_successful_collect_at" = false ∧
       containsKey ex "last_collect_status" = false)) :
    (containsKey (buildEnvelope NAME VERSION o t extra).metadata "last_successful_collect_at" = true
      ↔ dictGet (buildEnvelope NAME VERSION o t extra).metadata "last_collect_status"
          = some (.str "success")) ∧
    containsKey (buildEnvelope NAME VERSION o t extra).metadata "last_collect_attempt_at" = true := by
  constructor
  · rw [show (buildEnvelope NAME VERSION o t extra).metadata = envMetaX NAME VERSION o t extra
        from rfl,
      containsKey_envMetaX_not_in _ _ _ _ _ _ (fun ex h => (hex ex h).1),
      dictGet_envMetaX_not_in _ _ _ _ _ _ (fun ex h => (hex ex h).2),
      containsKey_envMeta_success, dictGet_envMeta_status]
    constructor
    · intro hb
      rw [eq_of_beq hb]
    · intro hs
      injection hs with hs1
      injection hs1 with hs2
      exact beq_iff_eq.mpr hs2
  · exact containsKey_envMetaX_attempt NAME VERSION o t extra

/-- C7 witness: a failed outcome with no extra metadata carries the attempt
timestamp but not the success timestamp. -/
theorem C7_witness :
    (containsKey (buildEnvelope "aptos" "0.1.0" (.failedErr "no REST info from node")
        "2024-01-02T00:00:00+00:00" none).metadata "last_successful_collect_at" = true
      ↔ dictGet (buildEnvelope "aptos" "0.1.0" (.failedErr "no REST info from node")
          "2024-01-02T00:00:00+00:00" none).metadata "last_collect_status"
          = some (.str "success")) ∧
    containsKey (buildEnvelope "aptos" "0.1.0" (.failedErr "no REST info from node")
        "2024-01-02T00:00:00+00:00" none).metadata "last_collect_attempt_at" = true :=
  C7_success_stamp "aptos" "0.1.0" "2024-01-02T00:00:00+00:00"
    (.failedErr "no REST info from node") none (fun _ h => nomatch h)

/-! Claim C8. -/

/-- C8 (confirmed): requesting an unregistered collector name makes
run_collector fail with the KeyError message built by joining the sorted
registered names; no envelope is produced at all, and the result does not
depend on any collector outcome (no collection is attempted). -/
theorem C8_unknown_collector (reg : List CollectorSpec) (name t : String) (extra : Option Dict)
    (h : regLookup reg name = none) :
    run_collector reg name t extra = .error (notFoundMsg reg name) ∧
    (∀ c ∈ reg, c.NAME ∈ sortedNames reg) ∧
    (∀ e : Envelope, run_collector reg name t extra ≠ .ok e) ∧
    (∀ o : CollectOutcome,
      run_collector (reg.map (fun c => ⟨c.NAME, c.VERSION, o⟩)) name t extra
        = run_collector reg name t extra) := by
  have herr : run_collector reg name t extra = .error (notFoundMsg reg name) := by
    unfold run_collector
    rw [h]
  refine ⟨herr, ?_, ?_, ?_⟩
  · intro c hc
    exact (mem_strSort _ _).mpr (List.mem_dedup.mpr (List.mem_map.mpr ⟨c, hc, rfl⟩))
  · intro e hok
    rw [herr] at hok
    cases hok
  · intro o
    have hlook : regLookup (reg.map (fun c => ⟨c.NAME, c.VERSION, o⟩)) name = none := by
      unfold regLookup at h ⊢
      rw [show (reg.map (fun c => (⟨c.NAME, c.VERSION, o⟩ : CollectorSpec))).reverse
            = reg.reverse.map (fun c => (⟨c.NAME, c.VERSION, o⟩ : CollectorSpec))
          from (List.map_reverse _ _).symm,
        List.find?_map]
      show Option.map _ (List.find? (fun c => c.NAME == name) reg.reverse) = none
      rw [h]
      rfl
    have hmsg : notFoundMsg (reg.map (fun c => ⟨c.NAME, c.VERSION, o⟩)) name
        = notFoundMsg reg name := by
      unfold notFoundMsg sortedNames regNames
      rw [List.map_map]
      rfl
    unfold run_collector
    rw [h, hlook, hmsg]

/-- C8 witness: looking up an unregistered name in a two-collector registry. -/
theorem C8_witness :
    run_collector regTwo "nope" "2024-01-01T00:00:00+00:00" none
      = .error (notFoundMsg regTwo "nope") ∧
    (∀ c ∈ regTwo, c.NAME ∈ sortedNames regTwo) ∧
    (∀ e : Envelope, run_collector regTwo "nope" "2024-01-01T00:00:00+00:00" none ≠ .ok e) ∧
    (∀ o : CollectOutcome,
      run_collector (regTwo.map (fun c => ⟨c.NAME, c.VERSION, o⟩)) "nope"
          "2024-01-01T00:00:00+00:00" none
        = run_collector regTwo "nope" "2024-01-01T00:00:00+00:00" none) :=
  C8_unknown_collector regTwo "nope" "2024-01-01T00:00:00+00:00" none rfl

/-! Claim C9. -/

/-- C9 (confirmed): for a fixed collector (name and version), fixed probe
outcome and fixed extra metadata, two runs of the envelope builder at
different attempt times produce identical envelopes once the two timestamp
fields are removed - no other field depends on the attempt time. -/
theorem C9_envelope_deterministic_modulo_timestamps (NAME VERSION : String)
    (o : CollectOutcome) (extra : Option Dict) (t1 t2 : String) :
    stripTs (buildEnvelope NAME VERSION o t1 extra)
      = stripTs (buildEnvelope NAME VERSION o t2 extra) := by
  unfold buildEnvelope stripTs
  congr 1
  show stripTsMeta (envMetaX NAME VERSION o t1 extra) = stripTsMeta (envMetaX NAME VERSION o t2 extra)
  unfold envMetaX
  cases extra with
  | none => exact envMeta_strip_congr NAME VERSION o t1 t2
  | some ex =>
    by_cases he : ex.isEmpty
    · simp only [if_pos he]
      exact envMeta_strip_congr NAME VERSION o t1 t2
    · simp only [if_neg he]
      exact dictUpdate_strip_congr ex (envMeta_keys_congr NAME VERSION o t1 t2)
        (envMeta_strip_congr NAME VERSION o t1 t2)

/-! Claim C10. -/

/-- C10 counterexample: a whitespace-only client_name override is non-empty
yet strips to the empty string, so it is discarded and does not count as
obtained information - with every RPC probe failing, the run still reaches
the failed outcome. -/
theorem C10_counterexample :
    (" " : String) ≠ "" ∧
    isFailedOutcome (collect_substrate (some " ") subAllFailIn) = true :=
  ⟨by decide, rfl⟩

/-- C10 (amended): for the Substrate family, when the wrapper supplies a
client_name that is non-blank (non-empty after stripping whitespace), the
failed outcome is unreachable: the kept name counts as obtained
information, so even if every RPC probe errors the run raises the partial
outcome instead. -/
theorem C10_substrate_nonblank_name_no_failed (cn : String) (i : SubstrateInputs)
    (h : (pyStripChars cn.toList).isEmpty = false) :
    isFailedOutcome (collect_substrate (some cn) i) = false ∧
    (i.systemVersion = none → i.systemChain = none → i.genesisHash = none →
      outcomeStatus (collect_substrate (some cn) i) = "partial") := by
  have hname := substrate_keep_name i h
  have hcn : (cn == "") = false := beq_eq_false_iff_ne.mpr (substrate_nonblank_ne_empty h)
  have hany : substrateHaveAnyInfo cn i = true := by
    simp [substrateHaveAnyInfo, hcn]
  have hc := collect_substrate_eq (some cn) i cn [] hname
  constructor
  · rw [hc]
    simp only [hany, Bool.not_true, Bool.false_eq_true, if_false]
    split
    · rfl
    · rfl
  · intro h1 h2 h3
    have hwc : substrateWorkloadComplete cn i = false := by
      simp [substrateWorkloadComplete, h1, truthyS]
    rw [hc]
    simp [hany, hwc]
    rfl

/-- C10 witness: the ajuna wrapper name keeps the run at partial when every
probe fails. -/
theorem C10_witness :
    isFailedOutcome (collect_substrate (some "ajuna") subAllFailIn) = false ∧
    outcomeStatus (collect_substrate (some "ajuna") subAllFailIn) = "partial" := by
  have hm := C10_substrate_nonblank_name_no_failed "ajuna" subAllFailIn rfl
  exact ⟨hm.1, hm.2 rfl rfl rfl⟩

end Harvester
